import Mathlib

/-!
Verification of the scoring and identity-merge core of the Journalist Finder
repository ("AI Specialist Finder").  Part 1 models the persistence layer:
the `journalists` table of `src/database/models.py` and the
create-or-merge transition `DatabaseManager.add_journalist` of
`src/database/database_manager.py`.  The SQLite store is modelled as a list
of rows in rowid order; `query(...).first()` is first-match lookup, a merge
is an in-place `List.set`, an insert appends, and a caught
`SQLAlchemyError` (NOT NULL or UNIQUE violation) rolls the transaction
back, leaving the list unchanged.
-/

namespace JournalistFinder

/-- Stored row of the `journalists` table (`src/database/models.py`).
`name` is the only NOT NULL column among those `add_journalist` reads or
writes; every other modelled column is nullable.  The autoincrement `id`
and the two timestamp columns are omitted: `add_journalist` never branches
on them.  Float columns are modelled as rationals. -/
structure Journalist where
  name : String
  email : Option String
  bio : Option String
  current_publication : Option String
  job_title : Option String
  specializations : Option String
  twitter_handle : Option String
  linkedin_url : Option String
  website_url : Option String
  country : Option String
  city : Option String
  timezone : Option String
  reputation_score : Option ℚ
  article_count : Option Int
  twitter_followers : Option Int
  linkedin_connections : Option Int
  citation_count : Option Int
  h_index : Option Int
  publication_count : Option Int
  ai_relevance_score : Option ℚ
  programming_expertise : Option Bool
  source_platform : Option String
  is_verified : Option Bool
deriving DecidableEq

/-- Incoming `journalist_data` dict of `add_journalist`, restricted to the
keys that are columns (other keys fail the `hasattr` guard and are
ignored).  A `none` field is a key that is absent or explicitly `None`:
the merge loop skips both alike (`value is not None`).  `specializations`
is modelled after the `json.dumps` list-to-string conversion that
`add_journalist` performs before the field loop, so it is a string. -/
structure JournalistData where
  name : Option String := none
  email : Option String := none
  bio : Option String := none
  current_publication : Option String := none
  job_title : Option String := none
  specializations : Option String := none
  twitter_handle : Option String := none
  linkedin_url : Option String := none
  website_url : Option String := none
  country : Option String := none
  city : Option String := none
  timezone : Option String := none
  reputation_score : Option ℚ := none
  article_count : Option Int := none
  twitter_followers : Option Int := none
  linkedin_connections : Option Int := none
  citation_count : Option Int := none
  h_index : Option Int := none
  publication_count : Option Int := none
  ai_relevance_score : Option ℚ := none
  programming_expertise : Option Bool := none
  source_platform : Option String := none
  is_verified : Option Bool := none
deriving DecidableEq

/-- Truthiness of an optional string field, as Python evaluates
`journalist_data.get(key)` in a condition: absent/`None` and the empty
string are falsy, every other string is truthy. -/
def optTruthy : Option String → Bool
  | none => false
  | some s => s ≠ ""

/-- Python whitespace set used by `str.strip`, `str.split` and the regex
class `\s` (ASCII range, which is all the data this code handles). -/
def isPySpace (c : Char) : Bool :=
  c == ' ' || c == '\t' || c == '\n' || c == '\r' || c == '\x0b' || c == '\x0c'

/-- Whether `s.strip() == ""` holds in Python: every character of `s` is
whitespace (in particular true for the empty string). -/
def stripEmpty (s : String) : Bool := s.data.all isPySpace

/-- Merge update for a nullable string column (`database_manager.py`
lines 61-65): a non-`None` incoming value is adopted exactly when the
current value is NULL or a whitespace-only string. -/
def updStr (cur v : Option String) : Option String :=
  match v with
  | none => cur
  | some w =>
    match cur with
    | none => some w
    | some c => if stripEmpty c then some w else some c

/-- Merge update for the NOT NULL `name` column: the stored string is
replaced only when it is whitespace-only (`current_value.strip() == ""`);
it can never be NULL. -/
def updName (cur : String) (v : Option String) : String :=
  match v with
  | none => cur
  | some w => if stripEmpty cur then w else cur

/-- Merge update for the two computed score columns
(`database_manager.py` lines 65-67): a non-`None` incoming value is
adopted when the current value is NULL, or when it is strictly greater
than the current value. -/
def updScore (cur v : Option ℚ) : Option ℚ :=
  match v with
  | none => cur
  | some w =>
    match cur with
    | none => some w
    | some c => if c < w then some w else some c

/-- Merge update for every other nullable non-string column (integer and
boolean metrics): filled only when the current value is NULL. -/
def updOpt {α : Type} (cur v : Option α) : Option α :=
  match v with
  | none => cur
  | some w =>
    match cur with
    | none => some w
    | some c => some c

/-- Field-by-field merge of an incoming record into an existing row: the
`for key, value in journalist_data.items()` loop of `add_journalist`
(lines 59-67).  Each column is updated independently, so the dict
iteration order is immaterial. -/
def mergeRecord (j : Journalist) (d : JournalistData) : Journalist where
  name := updName j.name d.name
  email := updStr j.email d.email
  bio := updStr j.bio d.bio
  current_publication := updStr j.current_publication d.current_publication
  job_title := updStr j.job_title d.job_title
  specializations := updStr j.specializations d.specializations
  twitter_handle := updStr j.twitter_handle d.twitter_handle
  linkedin_url := updStr j.linkedin_url d.linkedin_url
  website_url := updStr j.website_url d.website_url
  country := updStr j.country d.country
  city := updStr j.city d.city
  timezone := updStr j.timezone d.timezone
  reputation_score := updScore j.reputation_score d.reputation_score
  article_count := updOpt j.article_count d.article_count
  twitter_followers := updOpt j.twitter_followers d.twitter_followers
  linkedin_connections := updOpt j.linkedin_connections d.linkedin_connections
  citation_count := updOpt j.citation_count d.citation_count
  h_index := updOpt j.h_index d.h_index
  publication_count := updOpt j.publication_count d.publication_count
  ai_relevance_score := updScore j.ai_relevance_score d.ai_relevance_score
  programming_expertise := updOpt j.programming_expertise d.programming_expertise
  source_platform := updStr j.source_platform d.source_platform
  is_verified := updOpt j.is_verified d.is_verified

/-- Index of the first stored row satisfying `p`: the model of
`session.query(Journalist).filter(...).first()` under rowid order. -/
def findIdxP (p : Journalist → Bool) : List Journalist → Option Nat
  | [] => none
  | j :: s => if p j then some 0 else (findIdxP p s).map (· + 1)

/-- Email half of the lookup of `add_journalist` (line 45-46): runs only
when the incoming email is truthy. -/
def emailIdx (s : List Journalist) (d : JournalistData) : Option Nat :=
  match d.email with
  | some e => if e ≠ "" then findIdxP (fun j => j.email == some e) s else none
  | none => none

/-- Name half of the lookup of `add_journalist` (line 47-48): runs only
when the incoming name is truthy. -/
def nameIdx (s : List Journalist) (d : JournalistData) : Option Nat :=
  match d.name with
  | some n => if n ≠ "" then findIdxP (fun j => j.name == n) s else none
  | none => none

/-- Record lookup of `add_journalist` (lines 44-49): first by exact email
match, then — only if that found nothing — by exact name match. -/
def lookupIdx (s : List Journalist) (d : JournalistData) : Option Nat :=
  match emailIdx s d with
  | some i => some i
  | none => nameIdx s d

/-- Row built by `Journalist(**journalist_data)` on the insert path, with
the column defaults of `models.py` applied to the metric and boolean
columns (scores 0.0, counts 0, booleans false). -/
def mkJournalist (n : String) (d : JournalistData) : Journalist where
  name := n
  email := d.email
  bio := d.bio
  current_publication := d.current_publication
  job_title := d.job_title
  specializations := d.specializations
  twitter_handle := d.twitter_handle
  linkedin_url := d.linkedin_url
  website_url := d.website_url
  country := d.country
  city := d.city
  timezone := d.timezone
  reputation_score := some (d.reputation_score.getD 0)
  article_count := some (d.article_count.getD 0)
  twitter_followers := some (d.twitter_followers.getD 0)
  linkedin_connections := some (d.linkedin_connections.getD 0)
  citation_count := some (d.citation_count.getD 0)
  h_index := some (d.h_index.getD 0)
  publication_count := some (d.publication_count.getD 0)
  ai_relevance_score := some (d.ai_relevance_score.getD 0)
  programming_expertise := some (d.programming_expertise.getD false)
  source_platform := d.source_platform
  is_verified := some (d.is_verified.getD false)

/-- Commit check for the merge path.  SQLAlchemy writes only the changed
columns, so the UNIQUE constraint on `email` can only fire when the merge
rewrote `email` to a non-NULL value already held by another row; that
`SQLAlchemyError` is caught and the transaction rolled back. -/
def commitOkMerge (s : List Journalist) (i : Nat) (j m : Journalist) : Bool :=
  m.email == j.email || (s.eraseIdx i).all (fun k => k.email != m.email)

/-- Insert path of `add_journalist`: `Journalist(**journalist_data)` plus
commit.  A missing `name` violates NOT NULL and an `email` already present
violates UNIQUE; either `SQLAlchemyError` is caught, the session rolled
back, and the store left unchanged.  SQLite permits any number of NULL
emails under UNIQUE. -/
def insertNew (s : List Journalist) (d : JournalistData) : List Journalist :=
  match d.name with
  | none => s
  | some n =>
    match d.email with
    | some e =>
      if s.any (fun k => k.email == some e) then s else s ++ [mkJournalist n d]
    | none => s ++ [mkJournalist n d]

/-- Store transition of `DatabaseManager.add_journalist` (lines 40-90):
look up an existing row by email then name; merge field-by-field into the
matched row, or insert a fresh row when nothing matches; a caught
constraint violation leaves the store unchanged. -/
def add_journalist (s : List Journalist) (d : JournalistData) : List Journalist :=
  match lookupIdx s d with
  | some i =>
    match s.get? i with
    | some j =>
      let m := mergeRecord j d
      if commitOkMerge s i j m then s.set i m else s
    | none => s
  | none => insertNew s d

/-- Row with every nullable column NULL: base for concrete stores. -/
def blankRow (n : String) : Journalist where
  name := n
  email := none
  bio := none
  current_publication := none
  job_title := none
  specializations := none
  twitter_handle := none
  linkedin_url := none
  website_url := none
  country := none
  city := none
  timezone := none
  reputation_score := none
  article_count := none
  twitter_followers := none
  linkedin_connections := none
  citation_count := none
  h_index := none
  publication_count := none
  ai_relevance_score := none
  programming_expertise := none
  source_platform := none
  is_verified := none

/-- Concrete stored row with a non-null relevance score. -/
def rowScore : Journalist := { blankRow "alice" with ai_relevance_score := some (1/2) }

/-- Concrete incoming record carrying a higher relevance score. -/
def dataScore : JournalistData := { name := some "alice", ai_relevance_score := some (3/4) }

/-- Concrete incoming record with a truthy name. -/
def dataIdem : JournalistData := { name := some "carol", bio := some "writer" }

/-- Concrete stored row holding an email. -/
def rowFall : Journalist := { blankRow "bob" with email := some "old@x" }

/-- Concrete incoming record with a fresh email and a matching name. -/
def dataFall : JournalistData := { name := some "bob", email := some "new@x" }

/-!
Part 2: the two scoring engines.
`ReputationAnalyzer.calculate_reputation_score`
(`src/analysis/reputation_analyzer.py`) and
`RelevanceScorer.calculate_ai_relevance_score`
(`src/analysis/relevance_scorer.py`) receive a raw Python dict and may be
fed malformed values, so the input is modelled as an association list of
dynamically typed values.  The body of each engine runs inside
`try ... except Exception: return 0.0`; the body is embedded in the
`Except String` monad and the caught default applied on top.  Python
floats are modelled as exact rationals (no NaN/inf inputs occur in this
system); real-valued arithmetic (`math.log10`, `math.log`, `math.exp`)
lives in `ℝ`.
-/

/-- Dynamically typed Python value as far as this code discriminates. -/
inductive PyVal where
  | pnone
  | pbool (b : Bool)
  | pint (n : Int)
  | pfloat (q : ℚ)
  | pstr (s : String)
  | plist (xs : List PyVal)

/-- Raw `journalist_data` dict: association list, first binding wins. -/
abbrev Profile := List (String × PyVal)

/-- Python `dict.get(key, default)`. -/
def pyGet : Profile → String → PyVal → PyVal
  | [], _, dflt => dflt
  | (k0, v) :: rest, k, dflt => if k0 = k then v else pyGet rest k dflt

/-- Python truthiness of a value, as used in `x or 0`, `if not x:` and
`filter(None, ...)`. -/
def PyVal.truthy : PyVal → Bool
  | .pnone => false
  | .pbool b => b
  | .pint n => n ≠ 0
  | .pfloat q => q ≠ 0
  | .pstr s => s ≠ ""
  | .plist xs => !xs.isEmpty

/-- The idiom `journalist_data.get(key) or 0` used for every numeric
metric: a falsy value (absent, None, 0, empty string/list, False)
becomes the int 0. -/
def getOr0 (p : Profile) (k : String) : PyVal :=
  let v := pyGet p k .pnone
  if v.truthy then v else .pint 0

/-- Numeric reading of a value where Python would use it in arithmetic or
an order comparison with a number: bools coerce to 0/1, any non-numeric
value raises `TypeError`. -/
def pyToRat : PyVal → Except String ℚ
  | .pbool b => .ok (if b then 1 else 0)
  | .pint n => .ok (n : ℚ)
  | .pfloat q => .ok q
  | _ => .error "TypeError"

/-- Python `x == 0` on the read metric (never raises): numeric values
compare by value, anything else is simply unequal. -/
def pyEqZero : PyVal → Bool
  | .pint n => n == 0
  | .pfloat q => q == 0
  | .pbool b => !b
  | _ => false

/-- Python `x == "lit"` between a dynamic value and a string literal. -/
def PyVal.eqStr : PyVal → String → Bool
  | .pstr s, t => s == t
  | _, _ => false

/-- ASCII lowercasing, Python `str.lower()` on the ASCII text this system
handles. -/
def toLowerPy (s : List Char) : List Char := s.map Char.toLower

/-- List-level prefix test used by the substring and regex scans. -/
def startsWithL : List Char → List Char → Bool
  | [], _ => true
  | _ :: _, [] => false
  | c :: cs, x :: xs => c == x && startsWithL cs xs

/-- Python `pat in s` substring containment. -/
def containsSub (pat : List Char) : List Char → Bool
  | [] => pat.isEmpty
  | x :: rest => startsWithL pat (x :: rest) || containsSub pat rest

/-- Substring containment on strings. -/
def strContains (hay pat : String) : Bool := containsSub pat.data hay.data

/-- Regex word character `\w` (ASCII). -/
def isWordChar (c : Char) : Bool := c.isAlphanum || c == '_'

def wordish : Option Char → Bool
  | none => false
  | some c => isWordChar c

/-- Regex word boundary `\b` between two (optional) adjacent characters. -/
def boundaryOk (prev next : Option Char) : Bool := wordish prev != wordish next

/-- Fuel-driven scan for `re.findall(r'\b' + re.escape(pat) + r'\b', text)`:
counts non-overlapping, leftmost matches of the literal `pat` flanked by
word boundaries; after a match the scan resumes at its end.  `last` is
the final character of `pat`, `prev` the character before the current
position.  The fuel is the remaining text length, which suffices because
each step consumes at least one character. -/
def countAux (pat : List Char) (last : Char) : Nat → Option Char → List Char → Nat
  | 0, _, _ => 0
  | _ + 1, _, [] => 0
  | fuel + 1, prev, c :: rest =>
    if startsWithL pat (c :: rest) &&
        boundaryOk prev (some c) &&
        boundaryOk (some last) ((c :: rest).drop pat.length).head? then
      1 + countAux pat last fuel (some last) ((c :: rest).drop pat.length)
    else
      countAux pat last fuel (some c) rest

/-- Number of `\b pat \b` matches in `text` (patterns here are non-empty
and already lowercase, and the text is lowercased before matching, so
`re.IGNORECASE` is the identity). -/
def countMatches (pat text : List Char) : Nat :=
  match pat.getLast? with
  | none => 0
  | some last => countAux pat last text.length none text

/-- Atoms of the eight `_is_explicit_ai_journalist` patterns: literal
text, `\s+`, `.*` (never matching a newline), and an optional trailing
character (`s?`). -/
inductive RAtom where
  | lit (cs : List Char)
  | ws
  | anystar
  | optc (c : Char)

/-- Length-bounded backtracking matcher for a sequence of atoms anchored
at the current position.  Each recursive call shrinks atoms + text, so
fuel `atoms.length + text.length + 1` is always sufficient. -/
def matchSeq : Nat → List RAtom → List Char → Bool
  | 0, _, _ => false
  | _ + 1, [], _ => true
  | fuel + 1, .lit cs :: as, t =>
    startsWithL cs t && matchSeq fuel as (t.drop cs.length)
  | fuel + 1, .ws :: as, t =>
    match t with
    | [] => false
    | c :: r => isPySpace c && (matchSeq fuel as r || matchSeq fuel (.ws :: as) r)
  | fuel + 1, .anystar :: as, t =>
    matchSeq fuel as t ||
      (match t with
       | [] => false
       | c :: r => c != '\n' && matchSeq fuel (.anystar :: as) r)
  | fuel + 1, .optc c :: as, t =>
    matchSeq fuel as t ||
      (match t with
       | [] => false
       | x :: r => c == x && matchSeq fuel as r)

/-- Unanchored `re.search` for an atom sequence. -/
def searchSeq (as : List RAtom) : List Char → Bool
  | [] => matchSeq (as.length + 1) as []
  | c :: r => matchSeq (as.length + (c :: r).length + 1) as (c :: r) || searchSeq as r

/-! Lookup tables, transcribed from `relevance_scorer.py` and
`reputation_analyzer.py` in source order. -/

/-- Table `_build_keyword_weights`. -/
def aiKeywords : List (String × ℚ) :=
  [("artificial intelligence", 1.0), ("machine learning", 1.0),
   ("deep learning", 0.95), ("neural networks", 0.9),
   ("natural language processing", 0.9), ("computer vision", 0.9),
   ("reinforcement learning", 0.85),
   ("automation", 0.7), ("robotics", 0.75), ("chatbot", 0.6),
   ("algorithm", 0.65), ("data science", 0.7), ("big data", 0.6),
   ("predictive analytics", 0.65),
   ("programming", 0.8), ("software development", 0.75), ("coding", 0.7),
   ("software engineering", 0.75), ("web development", 0.6),
   ("mobile development", 0.6), ("devops", 0.65),
   ("tech startup", 0.6), ("silicon valley", 0.5), ("innovation", 0.4),
   ("digital transformation", 0.6), ("cloud computing", 0.65),
   ("cybersecurity", 0.7), ("blockchain", 0.6),
   ("technology", 0.3), ("tech", 0.3), ("digital", 0.25),
   ("internet", 0.2), ("software", 0.4)]

/-- Table `_build_programming_languages`. -/
def programmingLanguages : List (String × ℚ) :=
  [("python", 0.9), ("r", 0.8), ("julia", 0.8), ("tensorflow", 0.95),
   ("pytorch", 0.95), ("scikit-learn", 0.9), ("javascript", 0.6),
   ("java", 0.6), ("c++", 0.7), ("scala", 0.7), ("go", 0.6),
   ("rust", 0.6), ("swift", 0.5), ("kotlin", 0.5), ("sql", 0.5),
   ("matlab", 0.7), ("hadoop", 0.7), ("spark", 0.8)]

/-- Table `_build_tech_companies`. -/
def techCompanies : List (String × ℚ) :=
  [("openai", 1.0), ("deepmind", 1.0), ("anthropic", 1.0), ("nvidia", 0.9),
   ("google", 0.8), ("microsoft", 0.8), ("amazon", 0.7), ("meta", 0.7),
   ("apple", 0.7), ("tesla", 0.8), ("uber", 0.6), ("airbnb", 0.5),
   ("spotify", 0.5), ("netflix", 0.6), ("salesforce", 0.6),
   ("oracle", 0.5), ("ibm", 0.7), ("intel", 0.7), ("amd", 0.6)]

/-- Table `_build_ai_concepts`. -/
def aiConcepts : List (String × ℚ) :=
  [("supervised learning", 0.9), ("unsupervised learning", 0.9),
   ("semi-supervised learning", 0.85), ("transfer learning", 0.85),
   ("generative ai", 0.95), ("large language model", 0.95),
   ("transformer", 0.9), ("gpt", 0.9), ("bert", 0.85),
   ("convolutional neural network", 0.9), ("recurrent neural network", 0.85),
   ("gradient descent", 0.8), ("backpropagation", 0.8),
   ("feature engineering", 0.75), ("model training", 0.8),
   ("hyperparameter tuning", 0.75), ("overfitting", 0.7),
   ("cross-validation", 0.7), ("ensemble methods", 0.75),
   ("random forest", 0.7), ("support vector machine", 0.7),
   ("k-means clustering", 0.65), ("decision tree", 0.6),
   ("linear regression", 0.6), ("logistic regression", 0.6)]

/-- Tier-1 publications of `_calculate_publication_quality_score`. -/
def tier1Publications : List String :=
  ["new york times", "wall street journal", "washington post", "reuters",
   "bloomberg", "financial times", "the guardian", "bbc", "cnn",
   "techcrunch", "wired", "ars technica", "the verge"]

/-- Tier-2 publications. -/
def tier2Publications : List String :=
  ["forbes", "fortune", "business insider", "mashable", "engadget",
   "zdnet", "venturebeat", "recode", "axios", "fast company",
   "mit technology review", "ieee spectrum"]

/-- Tier-3 publications. -/
def tier3Publications : List String :=
  ["techradar", "computerworld", "infoworld", "network world",
   "security week", "ai news", "machine learning mastery"]

/-- Academic-institution keywords. -/
def academicKeywords : List String := ["university", "institute", "research", "academic"]

/-- Outlets of `_is_major_publication` (tier 1 plus forbes). -/
def majorPublications : List String :=
  ["new york times", "wall street journal", "washington post", "reuters",
   "bloomberg", "financial times", "the guardian", "bbc", "cnn",
   "techcrunch", "wired", "ars technica", "the verge", "forbes"]

/-- High-value specializations of `_calculate_expertise_score`. -/
def highValueSpecializations : List String :=
  ["artificial intelligence", "machine learning", "programming",
   "data science", "cybersecurity", "robotics"]

/-! Reputation engine. -/

/-- Value of the article sub-score on an already-numeric count. -/
noncomputable def articleVal (c : ℚ) : ℝ :=
  if c ≤ 0 then 0 else min (Real.logb 10 ((c : ℝ) + 1) / Real.logb 10 1001) 1

/-- Model of `_calculate_article_score`: 0 for a non-positive count, otherwise a
base-10 logarithmic ramp capped at 1 (1000 articles for the maximum). -/
noncomputable def calculate_article_score (v : PyVal) : Except String ℝ :=
  match pyToRat v with
  | .error e => .error e
  | .ok c => .ok (articleVal c)

/-- Model of `_calculate_social_score`: LinkedIn weighted double, then the same
logarithmic ramp against 100000 followers.  In Python a non-numeric
operand raises at the addition or at the comparison with 0; either way
the call raises exactly when one operand is non-numeric, which is what
the two numeric reads model. -/
noncomputable def calculate_social_score (tw li : PyVal) : Except String ℝ :=
  match pyToRat tw with
  | .error e => .error e
  | .ok t =>
    match pyToRat li with
    | .error e => .error e
    | .ok l =>
      if t + l * 2 ≤ 0 then .ok 0
      else .ok (min (Real.logb 10 (((t + l * 2) : ℝ) + 1) / Real.logb 10 100001) 1)

/-- Model of `_is_major_publication`: falsy publication is not major; a truthy
non-string raises at `.lower()`. -/
def is_major_publication (v : PyVal) : Except String Bool :=
  if !v.truthy then .ok false
  else
    match v with
    | .pstr s => .ok (majorPublications.any (fun pub => containsSub pub.data (toLowerPy s.data)))
    | _ => .error "AttributeError"

/-- Model of `_calculate_engagement_score`: rereads `twitter_followers` without the
`or 0` guard (an explicit `None` raises here), banded base engagement,
+0.1 for verification, +0.1 for a major publication, capped at 1;
0.5 default when there is no follower data. -/
noncomputable def calculate_engagement_score (p : Profile) : Except String ℝ :=
  match pyToRat (pyGet p "twitter_followers" (.pint 0)) with
  | .error e => .error e
  | .ok t =>
    if t ≤ 0 then .ok 0.5
    else
      match is_major_publication (pyGet p "current_publication" (.pstr "")) with
      | .error e => .error e
      | .ok mj =>
        let base : ℝ :=
          if t < 1000 then 0.8 else if t < 10000 then 0.6
          else if t < 100000 then 0.4 else 0.2
        .ok (min (base + (if (pyGet p "is_verified" (.pbool false)).truthy then 0.1 else 0)
          + (if mj then 0.1 else 0)) 1)

/-- Model of `_calculate_publication_quality_score`: 0.3 for a falsy publication,
then the first matching tier by substring (1.0 / 0.8 / 0.6), 0.7 for an
academic keyword, 0.4 otherwise; a truthy non-string raises. -/
noncomputable def calculate_publication_quality_score (v : PyVal) : Except String ℝ :=
  if !v.truthy then .ok 0.3
  else
    match v with
    | .pstr s =>
      let low := toLowerPy s.data
      if tier1Publications.any (fun pub => containsSub pub.data low) then .ok 1
      else if tier2Publications.any (fun pub => containsSub pub.data low) then .ok 0.8
      else if tier3Publications.any (fun pub => containsSub pub.data low) then .ok 0.6
      else if academicKeywords.any (fun kw => containsSub kw.data low) then .ok 0.7
      else .ok 0.4
    | _ => .error "AttributeError"

/-- Minimal model of `json.loads` restricted to what this system ever
stores in `specializations`: a JSON array of plain strings without escape
sequences (the `json.dumps` of a list of names).  Any other payload is
reported as a parse failure, which the caller's `except` turns into the
`[s]` fallback.  No claim depends on a finer model of the standard
library parser. -/
def skipWs (cs : List Char) : List Char := cs.dropWhile isPySpace

def takeStrAux : List Char → List Char → Option (String × List Char)
  | [], _ => none
  | '"' :: rest, acc => some (String.mk acc.reverse, rest)
  | '\\' :: _, _ => none
  | c :: rest, acc => takeStrAux rest (c :: acc)

def takeStr : List Char → Option (String × List Char)
  | '"' :: rest => takeStrAux rest []
  | _ => none

def parseSeq : Nat → List Char → Option (List String)
  | 0, _ => none
  | fuel + 1, cs => do
    let (s, rest) ← takeStr (skipWs cs)
    match skipWs rest with
    | ']' :: rest2 => if (skipWs rest2).isEmpty then some [s] else none
    | ',' :: rest2 => do
      let tail ← parseSeq fuel rest2
      some (s :: tail)
    | _ => none

def jsonLoadsArr (s : String) : Option (List String) :=
  match skipWs s.data with
  | '[' :: rest =>
    match skipWs rest with
    | ']' :: rest2 => if (skipWs rest2).isEmpty then some [] else none
    | cs => parseSeq cs.length cs
  | _ => none

/-- Left-to-right reading of a list of values expected to be strings,
raising the given error at the first non-string element. -/
def strListOf (err : String) : List PyVal → Except String (List String)
  | [] => .ok []
  | PyVal.pstr s :: rest =>
    match strListOf err rest with
    | .error e => .error e
    | .ok l => .ok (s :: l)
  | _ :: _ => .error err

/-- Specializations payload as `_calculate_expertise_score` consumes it:
a string goes through `json.loads` with the `[s]` fallback on failure, a
list must contain strings (anything else raises at `spec.lower()`), and a
non-iterable raises at the `for` loop. -/
def specListOf (v : PyVal) : Except String (List String) :=
  match v with
  | .pstr s =>
    match jsonLoadsArr s with
    | some xs => .ok xs
    | none => .ok [s]
  | .plist xs => strListOf "AttributeError" xs
  | _ => .error "TypeError"

/-- Model of `_calculate_expertise_score`: relevance base, +0.2 for programming
expertise, +0.1 per high-value specialization capped at +0.3, all capped
at 1.  A non-numeric relevance value raises at the `+=` lines. -/
noncomputable def calculate_expertise_score (ai : PyVal) (p : Profile) : Except String ℝ :=
  match pyToRat ai with
  | .error e => .error e
  | .ok a =>
    match specListOf (pyGet p "specializations" (.plist [])) with
    | .error e => .error e
    | .ok specs =>
      let bonus : ℚ :=
        ((specs.filter (fun s =>
            (highValueSpecializations.map (fun hv => String.mk (toLowerPy hv.data))).contains
              (String.mk (toLowerPy s.data)))).length : ℚ) * 0.1
      let progBonus : ℝ :=
        if (pyGet p "programming_expertise" (.pbool false)).truthy then 0.2 else 0
      .ok (min ((a : ℝ) + progBonus + ((min bonus 0.3 : ℚ) : ℝ)) 1)

/-- Model of `_calculate_academic_score`: 0 when all three academic metrics read
as 0, otherwise a weighted blend of capped logarithmic/linear ramps.  The
`source_platform` argument of the Python function is unused. -/
noncomputable def calculate_academic_score (cv hv pv : PyVal) : Except String ℝ :=
  if pyEqZero cv && pyEqZero hv && pyEqZero pv then .ok 0
  else
    match pyToRat cv with
    | .error e => .error e
    | .ok c =>
      match pyToRat hv with
      | .error e => .error e
      | .ok h =>
        match pyToRat pv with
        | .error e => .error e
        | .ok pc =>
          let citation := min (Real.logb 10 ((max c 1 : ℚ) : ℝ) / Real.logb 10 10000) 1
          let hIdx := min ((h : ℝ) / 50) 1
          let pub := min (Real.logb 10 ((max pc 1 : ℚ) : ℝ) / Real.logb 10 500) 1
          .ok (min (citation * 0.5 + hIdx * 0.3 + pub * 0.2) 1)

/-- Tail of `calculate_reputation_score` after the article sub-score:
the remaining sub-scores in source order, the verification bonus, and
the platform-dependent weighted sum (weights from
`config/settings.py`: article 0.3, social 0.2, engagement 0.2,
publication 0.2, expertise 0.1; academic platforms use 0.6 academic +
publication + expertise + bonus). -/
noncomputable def reputationTail (p : Profile) (article : ℝ) : Except String ℝ :=
  match calculate_social_score (getOr0 p "twitter_followers")
      (getOr0 p "linkedin_connections") with
  | .error e => .error e
  | .ok social =>
    match calculate_engagement_score p with
    | .error e => .error e
    | .ok engagement =>
      match calculate_publication_quality_score (pyGet p "current_publication" (.pstr "")) with
      | .error e => .error e
      | .ok publication =>
        match calculate_expertise_score (getOr0 p "ai_relevance_score") p with
        | .error e => .error e
        | .ok expertise =>
          match calculate_academic_score (getOr0 p "citation_count") (getOr0 p "h_index")
              (getOr0 p "publication_count") with
          | .error e => .error e
          | .ok academic =>
            let vb : ℝ := if (pyGet p "is_verified" (.pbool false)).truthy then 0.1 else 0
            let sp := pyGet p "source_platform" (.pstr "")
            if sp.eqStr "google_scholar" || sp.eqStr "researchgate" then
              .ok (academic * 0.6 + publication * 0.2 + expertise * 0.1 + vb)
            else
              .ok (article * 0.3 + social * 0.2 + engagement * 0.2 + publication * 0.2 +
                expertise * 0.1 + vb)

/-- Body of `calculate_reputation_score` up to the weighted sum
(lines 24-68 of `reputation_analyzer.py`). -/
noncomputable def reputation_raw (p : Profile) : Except String ℝ :=
  match calculate_article_score (getOr0 p "article_count") with
  | .error e => .error e
  | .ok article => reputationTail p article

/-- Body of `calculate_reputation_score` including the final clamp
`min(max(score, 0.0), 1.0)` (line 71). -/
noncomputable def reputation_inner (p : Profile) : Except String ℝ :=
  match reputation_raw p with
  | .error e => .error e
  | .ok r => .ok (min (max r 0) 1)

/-- Model of `ReputationAnalyzer.calculate_reputation_score`: the try/except
boundary substitutes 0.0 for any raised exception (lines 77-79). -/
noncomputable def calculate_reputation_score (p : Profile) : ℝ :=
  match reputation_inner p with
  | .ok v => v
  | .error _ => 0

/-! Relevance engine. -/

/-- Number of words of `text.split()`: maximal non-whitespace runs. -/
def wordCountAux : List Char → Bool → Nat
  | [], _ => 0
  | c :: rest, prevSpace =>
    (if prevSpace && !isPySpace c then 1 else 0) + wordCountAux rest (isPySpace c)

def wordCount (cs : List Char) : Nat := wordCountAux cs true

/-- Model of `_calculate_keyword_score`: weighted keyword hits with diminishing
returns `1 - exp(-count)`, normalized by `max(ln(word_count + 1), 1)` and
capped at 1. -/
noncomputable def calculate_keyword_score (text : List Char) : ℝ :=
  let wc := wordCount text
  if wc = 0 then 0
  else
    let score : ℝ := (aiKeywords.map (fun kw =>
      let c := countMatches kw.1.data text
      if 0 < c then (kw.2 : ℝ) * (1 - Real.exp (-(c : ℝ))) else 0)).sum
    min (score / max (Real.log ((wc : ℝ) + 1)) 1) 1

/-- Sum of the weights of the table entries found in the text
(`re.search` of the word-bounded pattern). -/
def tableHitSum (table : List (String × ℚ)) (text : List Char) : ℚ :=
  (table.map (fun kw => if countMatches kw.1.data text ≠ 0 then kw.2 else 0)).sum

/-- Model of `_calculate_programming_score`: matched language weights over an
assumed maximum of 3 mentions, capped at 1. -/
def calculate_programming_score (text : List Char) : ℚ :=
  min (tableHitSum programmingLanguages text / 3) 1

/-- Model of `_calculate_company_score`: matched company weights over 2, capped. -/
def calculate_company_score (text : List Char) : ℚ :=
  min (tableHitSum techCompanies text / 2) 1

/-- Model of `_calculate_concept_score`: matched concept weights over 5, capped. -/
def calculate_concept_score (text : List Char) : ℚ :=
  min (tableHitSum aiConcepts text / 5) 1

/-- The eight `_is_explicit_ai_journalist` regex patterns as atom
sequences. -/
def explicitPatterns : List (List RAtom) :=
  [[.lit "ai".data, .ws, .lit "journalist".data],
   [.lit "artificial".data, .ws, .lit "intelligence".data, .ws, .lit "reporter".data],
   [.lit "machine".data, .ws, .lit "learning".data, .ws, .lit "correspondent".data],
   [.lit "tech".data, .ws, .lit "journalist".data, .anystar, .lit "ai".data],
   [.lit "ai".data, .anystar, .lit "journalist".data],
   [.lit "cover".data, .optc 's', .ws, .lit "artificial".data, .ws, .lit "intelligence".data],
   [.lit "specialize".data, .optc 's', .ws, .lit "in".data, .ws, .lit "ai".data],
   [.lit "focuse".data, .optc 's', .ws, .lit "on".data, .ws, .lit "machine".data, .ws,
    .lit "learning".data]]

/-- Model of `_is_explicit_ai_journalist`. -/
def is_explicit_ai_journalist (text : List Char) : Bool :=
  explicitPatterns.any (fun pat => searchSeq pat text)

/-- Whether `s.strip()` is empty: every character is whitespace. -/
def stripEmptyL (cs : List Char) : Bool := cs.all isPySpace

/-- Relevance of the assembled lowercase text: the early 0.0 return for
blank text, the component blend `0.4/0.25/0.2/0.15`, the +0.2
explicit-AI-journalist bonus, and the final clamp to [0, 1]. -/
noncomputable def relevanceOfText (s : String) : ℝ :=
  if stripEmptyL s.data then 0
  else
    let text := s.data
    let base := calculate_keyword_score text * 0.4 +
      (calculate_programming_score text : ℝ) * 0.25 +
      (calculate_company_score text : ℝ) * 0.2 +
      (calculate_concept_score text : ℝ) * 0.15
    let final := if is_explicit_ai_journalist text then base + 0.2 else base
    min (max final 0) 1

/-- The specializations element of `text_sources`: a list is joined with
spaces (raising on non-string elements), anything else is read again
with the `''` default. -/
def specSource (p : Profile) : Except String PyVal :=
  match pyGet p "specializations" .pnone with
  | .plist xs =>
    match strListOf "TypeError" xs with
    | .error e => .error e
    | .ok l => .ok (.pstr (String.intercalate " " l))
  | _ => .ok (pyGet p "specializations" (.pstr ""))

/-- The `' '.join(filter(None, text_sources))` step: falsy entries are
dropped, kept entries must be strings (otherwise `join` raises). -/
def collectParts : List PyVal → Except String (List String)
  | [] => .ok []
  | v :: rest =>
    if v.truthy then
      match v with
      | .pstr s =>
        match collectParts rest with
        | .error e => .error e
        | .ok l => .ok (s :: l)
      | _ => .error "TypeError"
    else collectParts rest

/-- Text assembly of `calculate_ai_relevance_score` (lines 158-166):
bio, job title, specializations, name — joined and lowercased. -/
def combinedText (p : Profile) : Except String String :=
  match specSource p with
  | .error e => .error e
  | .ok sp =>
    match collectParts
        [pyGet p "bio" (.pstr ""), pyGet p "job_title" (.pstr ""), sp,
         pyGet p "name" (.pstr "")] with
    | .error e => .error e
    | .ok parts => .ok (String.mk (toLowerPy (String.intercalate " " parts).data))

/-- Body of `calculate_ai_relevance_score` inside the try. -/
noncomputable def relevance_inner (p : Profile) : Except String ℝ :=
  match combinedText p with
  | .error e => .error e
  | .ok s => .ok (relevanceOfText s)

/-- Model of `RelevanceScorer.calculate_ai_relevance_score`: the try/except
boundary substitutes 0.0 for any raised exception (lines 203-205). -/
noncomputable def calculate_ai_relevance_score (p : Profile) : ℝ :=
  match relevance_inner p with
  | .ok v => v
  | .error _ => 0

/-- The concrete profile of the specification's concrete scenario. -/
def profile7 : Profile :=
  [("name", .pstr "A. Smith"),
   ("bio", .pstr "Senior AI reporter covering machine learning"),
   ("twitter_followers", .pint 15000),
   ("is_verified", .pbool true),
   ("current_publication", .pstr "TechCrunch")]

/-- The text the relevance engine assembles from that profile. -/
def text7 : String := "senior ai reporter covering machine learning a. smith"

/-! Basic list lemmas for the store model. -/

lemma get_set_self {α : Type} : ∀ (s : List α) (i : Nat) (a : α), i < s.length →
    (s.set i a).get? i = some a
  | _ :: _, 0, _, _ => rfl
  | _ :: s, i + 1, a, h => get_set_self s i a (Nat.lt_of_succ_lt_succ h)
  | [], i, _, h => absurd h (by simp)

lemma set_of_get {α : Type} : ∀ (s : List α) (i : Nat) (a : α), s.get? i = some a →
    s.set i a = s
  | x :: s, 0, a, h => by
      simp only [List.get?] at h
      obtain rfl : x = a := by injection h
      rfl
  | x :: s, i + 1, a, h => by
      simp [List.set, set_of_get s i a h]
  | [], _, _, h => by simp at h

lemma get_append_len {α : Type} : ∀ (s : List α) (a : α), (s ++ [a]).get? s.length = some a
  | [], _ => rfl
  | _ :: s, a => get_append_len s a

lemma set_append_len {α : Type} : ∀ (s : List α) (a b : α),
    (s ++ [a]).set s.length b = s ++ [b]
  | [], _, _ => rfl
  | x :: s, a, b => by simp [List.set, set_append_len s a b]

/-! Lemmas about first-match lookup. -/

lemma findIdxP_lt_length {p : Journalist → Bool} :
    ∀ {s : List Journalist} {i : Nat}, findIdxP p s = some i → i < s.length := by
  intro s
  induction s with
  | nil => intro i h; simp [findIdxP] at h
  | cons j s ih =>
    intro i h
    by_cases hp : p j
    · simp [findIdxP, hp] at h
      subst h
      simp
    · simp [findIdxP, hp] at h
      obtain ⟨i', hi', rfl⟩ := h
      have h2 := ih hi'
      simp only [List.length_cons]
      omega

lemma findIdxP_some {p : Journalist → Bool} :
    ∀ {s : List Journalist} {i : Nat}, findIdxP p s = some i →
      ∃ j, s.get? i = some j ∧ p j = true := by
  intro s
  induction s with
  | nil => intro i h; simp [findIdxP] at h
  | cons j s ih =>
    intro i h
    by_cases hp : p j
    · simp [findIdxP, hp] at h
      exact ⟨j, by simp [h.symm], hp⟩
    · simp [findIdxP, hp] at h
      obtain ⟨i', hi', rfl⟩ := h
      obtain ⟨j', hj', hpj'⟩ := ih hi'
      exact ⟨j', by simpa using hj', hpj'⟩

lemma findIdxP_none {p : Journalist → Bool} :
    ∀ {s : List Journalist}, findIdxP p s = none → ∀ j ∈ s, p j = false := by
  intro s
  induction s with
  | nil => intro _ j hj; simp at hj
  | cons j s ih =>
    intro h j' hj'
    by_cases hp : p j
    · simp [findIdxP, hp] at h
    · simp [findIdxP, hp] at h
      rcases List.mem_cons.1 hj' with rfl | hmem
      · simpa using hp
      · exact ih h j' hmem

lemma findIdxP_set_self {p : Journalist → Bool} :
    ∀ {s : List Journalist} {i : Nat} (m : Journalist), findIdxP p s = some i →
      p m = true → findIdxP p (s.set i m) = some i := by
  intro s
  induction s with
  | nil => intro i m h _; simp [findIdxP] at h
  | cons j s ih =>
    intro i m h hm
    by_cases hp : p j
    · simp [findIdxP, hp] at h
      subst h
      simp [List.set, findIdxP, hm]
    · simp [findIdxP, hp] at h
      obtain ⟨i', hi', rfl⟩ := h
      simp [List.set, findIdxP, hp, ih m hi' hm]

lemma findIdxP_set_found {p : Journalist → Bool} :
    ∀ {s : List Journalist} {i : Nat} (m : Journalist), findIdxP p s = none →
      i < s.length → p m = true → findIdxP p (s.set i m) = some i := by
  intro s
  induction s with
  | nil => intro i m _ hi _; simp at hi
  | cons j s ih =>
    intro i m h hi hm
    by_cases hp : p j
    · simp [findIdxP, hp] at h
    · simp [findIdxP, hp] at h
      match i with
      | 0 => simp [List.set, findIdxP, hm]
      | i + 1 =>
        have := ih m h (by simpa using Nat.lt_of_succ_lt_succ hi) hm
        simp [List.set, findIdxP, hp, this]

lemma findIdxP_set_none {p : Journalist → Bool} :
    ∀ {s : List Journalist} {i : Nat} (m : Journalist), findIdxP p s = none →
      p m = false → findIdxP p (s.set i m) = none := by
  intro s
  induction s with
  | nil => intro i m _ _; simp [findIdxP]
  | cons j s ih =>
    intro i m h hm
    by_cases hp : p j
    · simp [findIdxP, hp] at h
    · simp [findIdxP, hp] at h
      match i with
      | 0 => simp [List.set, findIdxP, hm, h]
      | i + 1 =>
        have h2 := ih (i := i) m h hm
        simp [List.set, findIdxP, hp, h2]

lemma findIdxP_append_none {p : Journalist → Bool} :
    ∀ {s : List Journalist} (a : Journalist), findIdxP p s = none →
      findIdxP p (s ++ [a]) = if p a then some s.length else none := by
  intro s
  induction s with
  | nil => intro a _; by_cases hp : p a <;> simp [findIdxP, hp]
  | cons j s ih =>
    intro a h
    by_cases hp : p j
    · simp [findIdxP, hp] at h
    · simp [findIdxP, hp] at h
      have := ih a h
      by_cases hpa : p a <;> simp [findIdxP, hp, this, hpa]

lemma any_eq_false_of_findIdxP_none {p : Journalist → Bool}
    {s : List Journalist} (h : findIdxP p s = none) : s.any p = false := by
  have := findIdxP_none h
  simp only [List.any_eq_false]
  intro j hj
  simp [this j hj]

/-! Idempotence of the per-field update rules and of the record merge. -/

lemma updStr_idem (cur v : Option String) : updStr (updStr cur v) v = updStr cur v := by
  cases v with
  | none => rfl
  | some w =>
    cases cur with
    | none => simp [updStr]
    | some c =>
      by_cases h : stripEmpty c = true
      · simp [updStr, h]
      · simp [updStr, h]

lemma updName_idem (cur : String) (v : Option String) :
    updName (updName cur v) v = updName cur v := by
  cases v with
  | none => rfl
  | some w =>
    by_cases h : stripEmpty cur = true
    · simp [updName, h]
    · simp [updName, h]

lemma updScore_idem (cur v : Option ℚ) : updScore (updScore cur v) v = updScore cur v := by
  cases v with
  | none => rfl
  | some w =>
    cases cur with
    | none => simp [updScore]
    | some c =>
      by_cases h : c < w
      · simp [updScore, h]
      · simp [updScore, h]

lemma updOpt_idem {α : Type} (cur v : Option α) : updOpt (updOpt cur v) v = updOpt cur v := by
  cases v with
  | none => rfl
  | some w => cases cur <;> simp [updOpt]

lemma mergeRecord_idem (j : Journalist) (d : JournalistData) :
    mergeRecord (mergeRecord j d) d = mergeRecord j d := by
  simp [mergeRecord, updStr_idem, updName_idem, updScore_idem, updOpt_idem]

lemma updStr_self (v : Option String) : updStr v v = v := by
  cases v <;> simp [updStr]

lemma updScore_mk (v : Option ℚ) : updScore (some (v.getD 0)) v = some (v.getD 0) := by
  cases v <;> simp [updScore]

lemma updOpt_some {α : Type} (c : α) (v : Option α) : updOpt (some c) v = some c := by
  cases v <;> simp [updOpt]

/-- Merging a freshly inserted row with the very data it was built from
changes nothing. -/
lemma mergeRecord_mk (n : String) (d : JournalistData) (hn : d.name = some n) :
    mergeRecord (mkJournalist n d) d = mkJournalist n d := by
  simp [mergeRecord, mkJournalist, hn, updName, updStr_self, updScore_mk, updOpt_some]

lemma get_some_lt {α : Type} {s : List α} {i : Nat} {a : α} (h : s.get? i = some a) :
    i < s.length := by
  induction s generalizing i with
  | nil => simp at h
  | cons x s ih =>
    match i with
    | 0 => simp
    | i + 1 => exact Nat.succ_lt_succ (ih h)

/-- Merging never changes the name of a row that was matched by name. -/
lemma mergeRecord_name_same (j : Journalist) (d : JournalistData) (n : String)
    (hd : d.name = some n) (hj : j.name = n) : (mergeRecord j d).name = n := by
  simp [mergeRecord, updName, hd, hj]

/-- Merging never changes the email of a row that was matched by email. -/
lemma mergeRecord_email_same (j : Journalist) (d : JournalistData) (e : String)
    (hd : d.email = some e) (hj : j.email = some e) : (mergeRecord j d).email = some e := by
  simp [mergeRecord, updStr, hd, hj]

lemma lookupIdx_eq_none {s : List Journalist} {d : JournalistData}
    (h : lookupIdx s d = none) : emailIdx s d = none ∧ nameIdx s d = none := by
  rcases he : emailIdx s d with _ | i
  · simp only [lookupIdx, he] at h
    exact ⟨rfl, h⟩
  · simp only [lookupIdx, he] at h
    simp at h

/-- After a committed merge the very same incoming record finds the very
same row again: its identity columns survive the merge. -/
lemma lookupIdx_set_merge {s : List Journalist} {d : JournalistData} {i : Nat}
    {j : Journalist} (hl : lookupIdx s d = some i) (hg : s.get? i = some j) :
    lookupIdx (s.set i (mergeRecord j d)) d = some i := by
  rcases he : emailIdx s d with _ | i0
  · -- matched by name
    have hn : nameIdx s d = some i := by
      simp only [lookupIdx, he] at hl
      exact hl
    rcases hdn : d.name with _ | n
    · simp [nameIdx, hdn] at hn
    · have hnn : n ≠ "" := by
        by_contra hc
        simp [nameIdx, hdn, hc] at hn
      have hf : findIdxP (fun k => k.name == n) s = some i := by
        simpa [nameIdx, hdn, hnn] using hn
      obtain ⟨j0, hj0, hpj0⟩ := findIdxP_some hf
      rw [hg] at hj0
      obtain rfl : j = j0 := by injection hj0
      have hjn : j.name = n := by simpa using hpj0
      have hmn : (mergeRecord j d).name = n := mergeRecord_name_same j d n hdn hjn
      have hfset : findIdxP (fun k => k.name == n) (s.set i (mergeRecord j d)) = some i :=
        findIdxP_set_self _ hf (by simp [hmn])
      rcases hde : d.email with _ | e
      · simp [lookupIdx, emailIdx, hde, nameIdx, hdn, hnn, hfset]
      · by_cases hee : e = ""
        · subst hee
          simp [lookupIdx, emailIdx, hde, nameIdx, hdn, hnn, hfset]
        · have hfe : findIdxP (fun k => k.email == some e) s = none := by
            simpa [emailIdx, hde, hee] using he
          by_cases hpe : (mergeRecord j d).email == some e
          · have hfound := findIdxP_set_found (p := fun k => k.email == some e)
              (mergeRecord j d) hfe (get_some_lt hg) (by simpa using hpe)
            simp [lookupIdx, emailIdx, hde, hee, hfound]
          · have hnone := findIdxP_set_none (p := fun k => k.email == some e) (i := i)
              (mergeRecord j d) hfe (by simpa using hpe)
            simp [lookupIdx, emailIdx, hde, hee, hnone, nameIdx, hdn, hnn, hfset]
  · -- matched by email
    have hi0 : i0 = i := by
      simp only [lookupIdx, he] at hl
      injection hl
    subst hi0
    rcases hde : d.email with _ | e
    · simp [emailIdx, hde] at he
    · have hee : e ≠ "" := by
        by_contra hc
        simp [emailIdx, hde, hc] at he
      have hf : findIdxP (fun k => k.email == some e) s = some i0 := by
        simpa [emailIdx, hde, hee] using he
      obtain ⟨j0, hj0, hpj0⟩ := findIdxP_some hf
      rw [hg] at hj0
      obtain rfl : j = j0 := by injection hj0
      have hje : j.email = some e := by simpa using hpj0
      have hme : (mergeRecord j d).email = some e := mergeRecord_email_same j d e hde hje
      have hfset : findIdxP (fun k => k.email == some e) (s.set i0 (mergeRecord j d)) = some i0 :=
        findIdxP_set_self _ hf (by simp [hme])
      simp [lookupIdx, emailIdx, hde, hee, hfset]

/-- Feeding the store produced by a committed merge through
`add_journalist` again changes nothing. -/
lemma add_after_merge (s : List Journalist) (d : JournalistData) (i : Nat) (j : Journalist)
    (hl : lookupIdx s d = some i) (hg : s.get? i = some j) :
    add_journalist (s.set i (mergeRecord j d)) d = s.set i (mergeRecord j d) := by
  have hstab := lookupIdx_set_merge hl hg
  have hg2 : (s.set i (mergeRecord j d)).get? i = some (mergeRecord j d) :=
    get_set_self _ _ _ (by simpa using get_some_lt hg)
  have hidem := mergeRecord_idem j d
  have hok : commitOkMerge (s.set i (mergeRecord j d)) i (mergeRecord j d)
      (mergeRecord (mergeRecord j d) d) = true := by
    simp [commitOkMerge, hidem]
  simp only [add_journalist, hstab, hg2, hok]
  simp [hidem, set_of_get _ _ _ hg2]

/-- Feeding the store produced by a committed insert through
`add_journalist` again changes nothing. -/
lemma add_after_insert (s : List Journalist) (d : JournalistData) (n : String)
    (hdn : d.name = some n)
    (hlook : lookupIdx (s ++ [mkJournalist n d]) d = some s.length) :
    add_journalist (s ++ [mkJournalist n d]) d = s ++ [mkJournalist n d] := by
  have hg := get_append_len s (mkJournalist n d)
  have hmk := mergeRecord_mk n d hdn
  have hok : commitOkMerge (s ++ [mkJournalist n d]) s.length (mkJournalist n d)
      (mergeRecord (mkJournalist n d) d) = true := by
    simp [commitOkMerge, hmk]
  simp only [add_journalist, hlook, hg, hok]
  simp [hmk, set_append_len]

/-- C3: when `add_journalist` matches an incoming record against a stored
row whose `ai_relevance_score` is non-null and the incoming record also
carries an `ai_relevance_score`, the committed merge stores the incoming
value exactly when it is strictly greater than the stored one, and leaves
the stored value unchanged when it is lower or equal. -/
theorem merge_score_improves (s : List Journalist) (d : JournalistData)
    (i : Nat) (j : Journalist) (c v : ℚ)
    (hl : lookupIdx s d = some i) (hg : s.get? i = some j)
    (hc : j.ai_relevance_score = some c) (hv : d.ai_relevance_score = some v)
    (hok : commitOkMerge s i j (mergeRecord j d) = true) :
    (add_journalist s d).get? i = some (mergeRecord j d) ∧
      (mergeRecord j d).ai_relevance_score = if c < v then some v else some c := by
  constructor
  · simp only [add_journalist, hl, hg]
    simp only [hok, if_true]
    exact get_set_self _ _ _ (get_some_lt hg)
  · simp [mergeRecord, updScore, hc, hv]

/-- Witness for C3 at a concrete store, row and record. -/
theorem merge_score_improves_witness :
    (add_journalist [rowScore] dataScore).get? 0 = some (mergeRecord rowScore dataScore) ∧
      (mergeRecord rowScore dataScore).ai_relevance_score =
        if (1/2 : ℚ) < 3/4 then some ((3 : ℚ)/4) else some ((1 : ℚ)/2) :=
  merge_score_improves [rowScore] dataScore 0 rowScore (1/2) (3/4)
    (by decide) rfl rfl rfl (by decide)

/-- C4: merging an incoming record that populates only `bio` besides its
identity key into a matched row whose `bio` is NULL stores the incoming
bio and leaves every other field of the row — and every other row —
unchanged. -/
theorem merge_fill_gap_bio (s : List Journalist) (n b : String) (i : Nat) (j : Journalist)
    (hl : lookupIdx s { name := some n, bio := some b } = some i)
    (hg : s.get? i = some j) (hb : j.bio = none) :
    add_journalist s { name := some n, bio := some b } =
      s.set i { j with bio := some b } := by
  have he0 : emailIdx s { name := some n, bio := some b } = none := rfl
  have hn : nameIdx s { name := some n, bio := some b } = some i := by
    simp only [lookupIdx, he0] at hl
    exact hl
  have hnn : n ≠ "" := by
    by_contra hc
    simp [nameIdx, hc] at hn
  have hf : findIdxP (fun k => k.name == n) s = some i := by
    simpa [nameIdx, hnn] using hn
  obtain ⟨j0, hj0, hpj0⟩ := findIdxP_some hf
  rw [hg] at hj0
  obtain rfl : j = j0 := by injection hj0
  have hjn : j.name = n := by simpa using hpj0
  have hm : mergeRecord j { name := some n, bio := some b } = { j with bio := some b } := by
    simp [mergeRecord, updStr, updName, updScore, updOpt, hjn, hb]
  have hok : commitOkMerge s i j (mergeRecord j { name := some n, bio := some b }) = true := by
    simp [commitOkMerge, hm]
  simp only [add_journalist, hl, hg]
  rw [hm] at hok
  rw [hm]
  simp [hok]

/-- Witness for C4 at a concrete store and record. -/
theorem merge_fill_gap_bio_witness :
    add_journalist [blankRow "bob"] { name := some "bob", bio := some "AI reporter" } =
      [blankRow "bob"].set 0 { blankRow "bob" with bio := some "AI reporter" } :=
  merge_fill_gap_bio [blankRow "bob"] "bob" "AI reporter" 0 (blankRow "bob")
    (by decide) rfl (by decide)

/-- C5 counterexample: `add_journalist` is not idempotent for every
incoming record.  A record whose name is present but the empty string
(and with no email) skips both lookups — Python treats `""` as falsy — so
each call appends a fresh row, and the empty string satisfies the NOT
NULL constraint, so both inserts commit. -/
theorem add_journalist_not_idempotent :
    add_journalist (add_journalist [] { name := some "" }) { name := some "" } ≠
      add_journalist [] { name := some "" } := by decide

/-- C5 amended: `add_journalist` is idempotent for every store and every
incoming record whose name or email is truthy (non-empty): applying it
twice with the same record leaves the store exactly as applying it
once. -/
theorem add_journalist_idem (s : List Journalist) (d : JournalistData)
    (h : optTruthy d.name = true ∨ optTruthy d.email = true) :
    add_journalist (add_journalist s d) d = add_journalist s d := by
  rcases hl : lookupIdx s d with _ | i
  · -- no existing match: the insert path
    have hA : add_journalist s d = insertNew s d := by
      simp only [add_journalist, hl]
    obtain ⟨hei, hni⟩ := lookupIdx_eq_none hl
    rcases hdn : d.name with _ | n
    · -- NULL name: NOT NULL violation, store unchanged
      have hB : insertNew s d = s := by simp [insertNew, hdn]
      rw [hA, hB, hA, hB]
    · rcases hde : d.email with _ | e
      · -- no email: unconditional append
        have hB : insertNew s d = s ++ [mkJournalist n d] := by
          simp [insertNew, hdn, hde]
        have hnn : n ≠ "" := by
          rcases h with h1 | h1
          · rw [hdn] at h1
            simpa [optTruthy] using h1
          · rw [hde] at h1
            simp [optTruthy] at h1
        have hfn : findIdxP (fun k => k.name == n) s = none := by
          simpa [nameIdx, hdn, hnn] using hni
        have happ2 : findIdxP (fun k => k.name == n) (s ++ [mkJournalist n d]) =
            some s.length := by
          rw [findIdxP_append_none (mkJournalist n d) hfn]
          simp [mkJournalist]
        have hlook : lookupIdx (s ++ [mkJournalist n d]) d = some s.length := by
          simp [lookupIdx, emailIdx, hde, nameIdx, hdn, hnn, happ2]
        rw [hA, hB]
        exact add_after_insert s d n hdn hlook
      · by_cases hee : e = ""
        · -- falsy email: both lookups skipped it; insert checks UNIQUE on ""
          subst hee
          by_cases hany : s.any (fun k => k.email == some "") = true
          · -- duplicate "" email: insert rolled back, store unchanged
            have hB : insertNew s d = s := by simp [insertNew, hdn, hde, hany]
            rw [hA, hB, hA, hB]
          · have hanyf : s.any (fun k => k.email == some "") = false := by
              simpa using hany
            have hB : insertNew s d = s ++ [mkJournalist n d] := by
              simp [insertNew, hdn, hde, hanyf]
            have hnn : n ≠ "" := by
              rcases h with h1 | h1
              · rw [hdn] at h1
                simpa [optTruthy] using h1
              · rw [hde] at h1
                simp [optTruthy] at h1
            have hfn : findIdxP (fun k => k.name == n) s = none := by
              simpa [nameIdx, hdn, hnn] using hni
            have happ2 : findIdxP (fun k => k.name == n) (s ++ [mkJournalist n d]) =
                some s.length := by
              rw [findIdxP_append_none (mkJournalist n d) hfn]
              simp [mkJournalist]
            have hlook : lookupIdx (s ++ [mkJournalist n d]) d = some s.length := by
              simp [lookupIdx, emailIdx, hde, nameIdx, hdn, hnn, happ2]
            rw [hA, hB]
            exact add_after_insert s d n hdn hlook
        · -- truthy email: the failed email lookup guarantees a fresh email
          have hfe : findIdxP (fun k => k.email == some e) s = none := by
            simpa [emailIdx, hde, hee] using hei
          have hanyf : s.any (fun k => k.email == some e) = false :=
            any_eq_false_of_findIdxP_none hfe
          have hB : insertNew s d = s ++ [mkJournalist n d] := by
            simp [insertNew, hdn, hde, hanyf]
          have happ2 : findIdxP (fun k => k.email == some e) (s ++ [mkJournalist n d]) =
              some s.length := by
            rw [findIdxP_append_none (mkJournalist n d) hfe]
            simp [mkJournalist, hde]
          have hlook : lookupIdx (s ++ [mkJournalist n d]) d = some s.length := by
            simp [lookupIdx, emailIdx, hde, hee, happ2]
          rw [hA, hB]
          exact add_after_insert s d n hdn hlook
  · -- existing match: the merge path
    rcases hg : s.get? i with _ | j
    · have hA : add_journalist s d = s := by
        simp only [add_journalist, hl, hg]
      rw [hA]
      exact hA
    · by_cases hok : commitOkMerge s i j (mergeRecord j d) = true
      · have hA : add_journalist s d = s.set i (mergeRecord j d) := by
          simp only [add_journalist, hl, hg]
          simp [hok]
        rw [hA]
        exact add_after_merge s d i j hl hg
      · have hokf : commitOkMerge s i j (mergeRecord j d) = false := by
          simpa using hok
        have hA : add_journalist s d = s := by
          simp only [add_journalist, hl, hg]
          simp [hokf]
        rw [hA]
        exact hA

/-- Witness for the amended C5 at a concrete record with a truthy name. -/
theorem add_journalist_idem_witness :
    add_journalist (add_journalist [] dataIdem) dataIdem = add_journalist [] dataIdem :=
  add_journalist_idem [] dataIdem (Or.inl (by decide))

/-- C10 counterexample: the claimed fallthrough is not universal.  First
input: the incoming record carries the fresh non-empty email `"x"` and
the name `""`; a stored row with that same name exists and holds the
different non-empty email `"y"`, yet — because `""` is falsy — the code
inserts a second row instead of merging.  Second input: the incoming
name `"bob"` matches a stored row whose different email `" "` is
non-empty but whitespace-only, and the merge overwrites the stored email
with the incoming one instead of leaving it unchanged. -/
theorem email_fallthrough_not_universal :
    (add_journalist [{ blankRow "" with email := some "y" }]
        { name := some "", email := some "x" }).length = 2 ∧
      add_journalist [{ blankRow "bob" with email := some " " }]
          { name := some "bob", email := some "x" } =
        [{ blankRow "bob" with email := some "x" }] := by
  exact ⟨by decide, by decide⟩

/-- C10 amended: for an incoming record with a non-empty email matched by
no stored row and a non-empty name, the lookup falls through to exact
name match; when the first row with that name holds a different email
with non-whitespace content, the record is merged into that row in place
(no second row is created) and the stored email is left unchanged. -/
theorem email_fallthrough_name_merge (s : List Journalist) (d : JournalistData)
    (e n e2 : String) (i : Nat) (j : Journalist)
    (hde : d.email = some e) (hee : e ≠ "")
    (hnoe : findIdxP (fun k => k.email == some e) s = none)
    (hdn : d.name = some n) (hnn : n ≠ "")
    (hfn : findIdxP (fun k => k.name == n) s = some i)
    (hg : s.get? i = some j)
    (hje : j.email = some e2) (hblank : stripEmpty e2 = false) (hdiff : e2 ≠ e) :
    add_journalist s d = s.set i (mergeRecord j d) ∧
      (mergeRecord j d).email = some e2 := by
  have hl : lookupIdx s d = some i := by
    simp [lookupIdx, emailIdx, hde, hee, hnoe, nameIdx, hdn, hnn, hfn]
  have hme : (mergeRecord j d).email = some e2 := by
    simp [mergeRecord, updStr, hde, hje, hblank]
  have hok : commitOkMerge s i j (mergeRecord j d) = true := by
    simp [commitOkMerge, hme, hje]
  refine ⟨?_, hme⟩
  simp only [add_journalist, hl, hg]
  simp [hok]

/-! Scoring lemmas. -/

/-- Evaluation of the reputation body on the profile whose explicit
`None` follower count raises inside `_calculate_engagement_score`. -/
lemma reputation_inner_none_followers :
    reputation_inner [("twitter_followers", PyVal.pnone)] = .error "TypeError" := by
  norm_num [reputation_inner, reputation_raw, reputationTail, calculate_article_score,
    calculate_social_score, calculate_engagement_score, is_major_publication,
    calculate_publication_quality_score, calculate_expertise_score, specListOf,
    calculate_academic_score, getOr0, pyGet, pyToRat, pyEqZero, PyVal.truthy, PyVal.eqStr]

/-- Evaluation of the relevance body on the profile whose integer bio
raises inside the `' '.join`. -/
lemma relevance_inner_int_bio :
    relevance_inner [("bio", PyVal.pint 3)] = .error "TypeError" := rfl

/-- The reputation score is either the caught default 0 or a clamped
value. -/
lemma reputation_score_cases (p : Profile) :
    calculate_reputation_score p = 0 ∨
      ∃ r, calculate_reputation_score p = min (max r 0) 1 := by
  cases h : reputation_raw p with
  | error e => left; simp [calculate_reputation_score, reputation_inner, h]
  | ok r => right; exact ⟨r, by simp [calculate_reputation_score, reputation_inner, h]⟩

/-- The relevance score is either the caught default 0 or the relevance
of some assembled text. -/
lemma relevance_score_cases (p : Profile) :
    calculate_ai_relevance_score p = 0 ∨
      ∃ s, calculate_ai_relevance_score p = relevanceOfText s := by
  cases h : combinedText p with
  | error e => left; simp [calculate_ai_relevance_score, relevance_inner, h]
  | ok s => right; exact ⟨s, by simp [calculate_ai_relevance_score, relevance_inner, h]⟩

/-- The relevance of any text lies in [0, 1]: it is 0 for blank text and
clamped otherwise. -/
lemma relevanceOfText_mem_unit (s : String) :
    0 ≤ relevanceOfText s ∧ relevanceOfText s ≤ 1 := by
  unfold relevanceOfText
  by_cases h : stripEmptyL s.data
  · simp [h]
  · simp only [h]
    constructor
    · simp [le_min_iff, le_max_iff]
    · simp [min_le_iff]

/-- Evaluation of the reputation body on the empty record. -/
lemma reputation_inner_empty : reputation_inner ([] : Profile) = .ok 0.16 := by
  norm_num [reputation_inner, reputation_raw, reputationTail, calculate_article_score,
    articleVal, calculate_social_score, calculate_engagement_score, is_major_publication,
    calculate_publication_quality_score, calculate_expertise_score, specListOf,
    strListOf, calculate_academic_score, getOr0, pyGet, pyToRat, pyEqZero, PyVal.truthy,
    PyVal.eqStr]
  rw [if_neg (by simp)]
  norm_num [max_eq_left, min_eq_left]

/-- Evaluation of the relevance body on the empty record. -/
lemma relevance_inner_empty : relevance_inner ([] : Profile) = .ok 0 := by
  norm_num [relevance_inner, combinedText, specSource, collectParts, pyGet, PyVal.truthy,
    relevanceOfText, stripEmptyL, toLowerPy, String.intercalate]

/-- C1 counterexample: on inputs whose score computation raises, both
engines catch the exception but return 0.0 — not the low-but-nonzero
defaults 0.1 and 0.05 asserted by the claim. -/
theorem exception_default_not_nonzero :
    reputation_inner [("twitter_followers", PyVal.pnone)] = .error "TypeError" ∧
      calculate_reputation_score [("twitter_followers", PyVal.pnone)] = 0 ∧
      relevance_inner [("bio", PyVal.pint 3)] = .error "TypeError" ∧
      calculate_ai_relevance_score [("bio", PyVal.pint 3)] = 0 ∧
      (0 : ℝ) ≠ 1 / 10 ∧ (0 : ℝ) ≠ 1 / 20 :=
  ⟨reputation_inner_none_followers,
   by simp [calculate_reputation_score, reputation_inner_none_followers],
   relevance_inner_int_bio,
   by simp [calculate_ai_relevance_score, relevance_inner_int_bio],
   by norm_num, by norm_num⟩

/-- C1 amended: any exception raised inside either score computation is
caught at the call boundary and the documented default — 0.0 for both
engines — is returned instead of propagating. -/
theorem scoring_exception_caught_default_zero (p q : Profile) (e1 e2 : String)
    (h1 : reputation_inner p = .error e1) (h2 : relevance_inner q = .error e2) :
    calculate_reputation_score p = 0 ∧ calculate_ai_relevance_score q = 0 :=
  ⟨by simp [calculate_reputation_score, h1], by simp [calculate_ai_relevance_score, h2]⟩

/-- Witness for the amended C1 at the two concrete raising profiles. -/
theorem scoring_exception_caught_default_zero_witness :
    calculate_reputation_score [("twitter_followers", PyVal.pnone)] = 0 ∧
      calculate_ai_relevance_score [("bio", PyVal.pint 3)] = 0 :=
  scoring_exception_caught_default_zero _ _ "TypeError" "TypeError"
    reputation_inner_none_followers relevance_inner_int_bio

/-- C2: for every profile record, adversarial ones included, both scores
lie in the closed interval [0, 1]. -/
theorem scores_in_unit_interval (p : Profile) :
    0 ≤ calculate_reputation_score p ∧ calculate_reputation_score p ≤ 1 ∧
      0 ≤ calculate_ai_relevance_score p ∧ calculate_ai_relevance_score p ≤ 1 := by
  have hrep : 0 ≤ calculate_reputation_score p ∧ calculate_reputation_score p ≤ 1 := by
    rcases reputation_score_cases p with h | ⟨r, h⟩
    · simp [h]
    · rw [h]
      constructor
      · simp [le_min_iff, le_max_iff]
      · simp [min_le_iff]
  have hrel : 0 ≤ calculate_ai_relevance_score p ∧ calculate_ai_relevance_score p ≤ 1 := by
    rcases relevance_score_cases p with h | ⟨s, h⟩
    · simp [h]
    · rw [h]
      exact relevanceOfText_mem_unit s
  exact ⟨hrep.1, hrep.2, hrel.1, hrel.2⟩

/-- C8: the empty record raises no exception; the relevance score is
exactly 0.0 and the reputation score is the single default floor 0.16,
the weighted combination of the two documented defaults (0.5 engagement
when there is no social data, 0.3 for an unknown publication, each at
weight 0.2). -/
theorem empty_record_scores :
    reputation_inner ([] : Profile) = .ok 0.16 ∧
      relevance_inner ([] : Profile) = .ok 0 ∧
      calculate_reputation_score [] = 0.16 ∧
      calculate_ai_relevance_score [] = 0 :=
  ⟨reputation_inner_empty, relevance_inner_empty,
   by simp [calculate_reputation_score, reputation_inner_empty],
   by simp [calculate_ai_relevance_score, relevance_inner_empty]⟩

/-- Shadowing another key leaves a dict read unchanged. -/
lemma pyGet_cons_ne (k0 k : String) (v : PyVal) (p : Profile) (dflt : PyVal)
    (h : k0 ≠ k) : pyGet ((k0, v) :: p) k dflt = pyGet p k dflt := by
  simp [pyGet, h]

/-- The reputation tail ignores a shadowed `article_count` binding. -/
lemma reputationTail_cons_article (p : Profile) (v : PyVal) (a : ℝ) :
    reputationTail (("article_count", v) :: p) a = reputationTail p a := by
  simp [reputationTail, calculate_engagement_score, calculate_expertise_score, getOr0, pyGet]

/-- The `or 0` read of a shadowed integer `article_count` is the integer
itself (when the integer is 0 the falsy branch returns the same value). -/
lemma getOr0_cons_article_int (p : Profile) (c : Int) :
    getOr0 (("article_count", PyVal.pint c) :: p) "article_count" = .pint c := by
  by_cases h : c = 0
  · subst h
    simp [getOr0, pyGet, PyVal.truthy]
  · simp [getOr0, pyGet, PyVal.truthy, h]

/-- The reputation body on a profile with a shadowed integer article
count factors through `articleVal`. -/
lemma reputation_raw_cons_article (p : Profile) (c : Int) :
    reputation_raw (("article_count", PyVal.pint c) :: p) =
      reputationTail p (articleVal (c : ℚ)) := by
  simp only [reputation_raw, getOr0_cons_article_int, calculate_article_score, pyToRat]
  exact reputationTail_cons_article p _ _

/-- The article sub-score never decreases in the article count. -/
lemma articleVal_mono {c1 c2 : ℚ} (h : c1 ≤ c2) : articleVal c1 ≤ articleVal c2 := by
  unfold articleVal
  by_cases h2 : c2 ≤ 0
  · rw [if_pos (le_trans h h2), if_pos h2]
  · by_cases h1 : c1 ≤ 0
    · rw [if_pos h1, if_neg h2]
      apply le_min _ (by norm_num)
      apply div_nonneg
      · apply Real.logb_nonneg (by norm_num)
        have : (0 : ℝ) < (c2 : ℝ) := by exact_mod_cast not_le.mp h2
        linarith
      · exact le_of_lt (Real.logb_pos (by norm_num) (by norm_num))
    · rw [if_neg h1, if_neg h2]
      apply min_le_min _ le_rfl
      apply div_le_div_of_nonneg_right
      · have hc1 : (0 : ℝ) < (c1 : ℝ) := by exact_mod_cast not_le.mp h1
        have hcc : (c1 : ℝ) ≤ (c2 : ℝ) := by exact_mod_cast h
        apply Real.logb_le_logb_of_le
        · norm_num
        · linarith
        · linarith
      · apply Real.logb_nonneg <;> norm_num

/-- The reputation tail either fails uniformly or is a monotone function
of the article sub-score (weight 0.3, or constant on academic
platforms). -/
lemma reputationTail_cases (p : Profile) :
    (∃ e, ∀ a : ℝ, reputationTail p a = .error e) ∨
      (∃ f : ℝ → ℝ, (∀ a : ℝ, reputationTail p a = .ok (f a)) ∧ Monotone f) := by
  cases h1 : calculate_social_score (getOr0 p "twitter_followers")
      (getOr0 p "linkedin_connections") with
  | error e => exact Or.inl ⟨e, fun a => by simp [reputationTail, h1]⟩
  | ok social =>
  cases h2 : calculate_engagement_score p with
  | error e => exact Or.inl ⟨e, fun a => by simp [reputationTail, h1, h2]⟩
  | ok engagement =>
  cases h3 : calculate_publication_quality_score (pyGet p "current_publication" (.pstr "")) with
  | error e => exact Or.inl ⟨e, fun a => by simp [reputationTail, h1, h2, h3]⟩
  | ok publication =>
  cases h4 : calculate_expertise_score (getOr0 p "ai_relevance_score") p with
  | error e => exact Or.inl ⟨e, fun a => by simp [reputationTail, h1, h2, h3, h4]⟩
  | ok expertise =>
  cases h5 : calculate_academic_score (getOr0 p "citation_count") (getOr0 p "h_index")
      (getOr0 p "publication_count") with
  | error e => exact Or.inl ⟨e, fun a => by simp [reputationTail, h1, h2, h3, h4, h5]⟩
  | ok academic =>
  by_cases h6 : ((pyGet p "source_platform" (.pstr "")).eqStr "google_scholar" ||
      (pyGet p "source_platform" (.pstr "")).eqStr "researchgate") = true
  · refine Or.inr ⟨fun _ => academic * 0.6 + publication * 0.2 + expertise * 0.1 +
      (if (pyGet p "is_verified" (.pbool false)).truthy then 0.1 else 0), fun a => ?_,
      monotone_const⟩
    simp [reputationTail, h1, h2, h3, h4, h5, h6]
  · refine Or.inr ⟨fun a => a * 0.3 + social * 0.2 + engagement * 0.2 + publication * 0.2 +
      expertise * 0.1 + (if (pyGet p "is_verified" (.pbool false)).truthy then 0.1 else 0),
      fun a => ?_, ?_⟩
    · simp only [reputationTail, h1, h2, h3, h4, h5]
      rw [if_neg h6]
    · intro x y hxy
      have hx3 : x * 0.3 ≤ y * 0.3 := by nlinarith
      dsimp only
      linarith

/-- C6: increasing the `article_count` field while holding every other
field of the profile fixed never decreases the reputation score. -/
theorem reputation_monotone_article (p : Profile) (c1 c2 : Int) (h : c1 ≤ c2) :
    calculate_reputation_score (("article_count", PyVal.pint c1) :: p) ≤
      calculate_reputation_score (("article_count", PyVal.pint c2) :: p) := by
  have e1 := reputation_raw_cons_article p c1
  have e2 := reputation_raw_cons_article p c2
  have hart : articleVal (c1 : ℚ) ≤ articleVal (c2 : ℚ) :=
    articleVal_mono (by exact_mod_cast h)
  rcases reputationTail_cases p with ⟨e, he⟩ | ⟨f, hf, hmono⟩
  · rw [show calculate_reputation_score (("article_count", PyVal.pint c1) :: p) = 0 from by
        simp [calculate_reputation_score, reputation_inner, e1, he],
      show calculate_reputation_score (("article_count", PyVal.pint c2) :: p) = 0 from by
        simp [calculate_reputation_score, reputation_inner, e2, he]]
  · rw [show calculate_reputation_score (("article_count", PyVal.pint c1) :: p) =
        min (max (f (articleVal (c1 : ℚ))) 0) 1 from by
        simp [calculate_reputation_score, reputation_inner, e1, hf],
      show calculate_reputation_score (("article_count", PyVal.pint c2) :: p) =
        min (max (f (articleVal (c2 : ℚ))) 0) 1 from by
        simp [calculate_reputation_score, reputation_inner, e2, hf]]
    exact min_le_min (max_le_max (hmono hart) le_rfl) le_rfl

/-- Witness for C6 at a concrete profile and pair of counts. -/
theorem reputation_monotone_article_witness :
    calculate_reputation_score [("article_count", PyVal.pint 3)] ≤
      calculate_reputation_score [("article_count", PyVal.pint 5)] :=
  reputation_monotone_article [] 3 5 (by decide)

/-- A table contributes nothing when no entry matches the text. -/
lemma tableHitSum_eq_zero {text : List Char} :
    ∀ table : List (String × ℚ),
      table.all (fun kw => countMatches kw.1.data text == 0) = true →
        tableHitSum table text = 0
  | [], _ => by simp [tableHitSum]
  | kw :: rest, h => by
    simp only [List.all_cons, Bool.and_eq_true, beq_iff_eq] at h
    have ih := tableHitSum_eq_zero rest h.2
    simp only [tableHitSum, List.map_cons, List.sum_cons] at ih ⊢
    rw [if_neg (by simp [h.1]), ih]
    norm_num

/-- The keyword sub-score of any text is at most 1. -/
lemma keyword_score_le_one (t : List Char) : calculate_keyword_score t ≤ 1 := by
  unfold calculate_keyword_score
  by_cases h : wordCount t = 0
  · simp [h]
  · simp only [h, if_false]
    exact min_le_right _ _

/-- The relevance engine assembles exactly the expected lowercase text
from the concrete scenario profile. -/
lemma combinedText_profile7 : combinedText profile7 = .ok text7 := rfl

/-- On the concrete scenario text no programming language, company or
concept matches, the explicit-AI-journalist bonus does not fire, and the
keyword component is capped at 1 — so the relevance score stays below
0.4 and in particular below 0.5 (the bio says "reporter", never
"journalist", and "ai" alone is not in the keyword table). -/
lemma relevance_profile7_lt : calculate_ai_relevance_score profile7 < 1 / 2 := by
  have hsc : calculate_ai_relevance_score profile7 = relevanceOfText text7 := by
    simp [calculate_ai_relevance_score, relevance_inner, combinedText_profile7]
  rw [hsc]
  have hpr : tableHitSum programmingLanguages text7.data = 0 :=
    tableHitSum_eq_zero _ (by decide)
  have hco : tableHitSum techCompanies text7.data = 0 :=
    tableHitSum_eq_zero _ (by decide)
  have hcn : tableHitSum aiConcepts text7.data = 0 :=
    tableHitSum_eq_zero _ (by decide)
  have hex : is_explicit_ai_journalist text7.data = false := by decide
  have hkw : calculate_keyword_score text7.data ≤ 1 := keyword_score_le_one _
  have hblank : stripEmptyL text7.data = false := by decide
  unfold relevanceOfText
  simp only [hblank, Bool.false_eq_true, if_false, calculate_programming_score,
    calculate_company_score, calculate_concept_score, hpr, hco, hcn, hex]
  norm_num
  have h1 : min (max (calculate_keyword_score text7.data * 0.4) 0) 1 ≤
      max (calculate_keyword_score text7.data * 0.4) 0 := min_le_left _ _
  have h2 : max (calculate_keyword_score text7.data * 0.4) 0 < 1 / 2 :=
    max_lt (by nlinarith) (by norm_num)
  linarith

/-- Article sub-score of the concrete scenario profile (count absent). -/
lemma article_profile7 :
    calculate_article_score (getOr0 profile7 "article_count") = .ok 0 := by
  have h : getOr0 profile7 "article_count" = .pint 0 := rfl
  rw [h]
  norm_num [calculate_article_score, pyToRat, articleVal]

/-- Social sub-score of the concrete scenario profile: 15000 Twitter
followers, no LinkedIn data. -/
lemma social_profile7 :
    calculate_social_score (getOr0 profile7 "twitter_followers")
        (getOr0 profile7 "linkedin_connections") =
      .ok (min (Real.logb 10 15001 / Real.logb 10 100001) 1) := by
  have h1 : getOr0 profile7 "twitter_followers" = .pint 15000 := rfl
  have h2 : getOr0 profile7 "linkedin_connections" = .pint 0 := rfl
  rw [h1, h2]
  norm_num [calculate_social_score, pyToRat]

/-- Engagement sub-score of the concrete scenario profile: 15000
followers band (0.4), verified (+0.1), major publication (+0.1). -/
lemma engagement_profile7 : calculate_engagement_score profile7 = .ok 0.6 := by
  have hmj : is_major_publication (PyVal.pstr "TechCrunch") = .ok true := rfl
  have h1 : pyGet profile7 "twitter_followers" (.pint 0) = .pint 15000 := rfl
  have h2 : pyGet profile7 "current_publication" (.pstr "") = .pstr "TechCrunch" := rfl
  have h3 : pyGet profile7 "is_verified" (.pbool false) = .pbool true := rfl
  rw [calculate_engagement_score, h1, h2, h3, hmj]
  norm_num [pyToRat, PyVal.truthy]

/-- Publication-quality sub-score of the concrete scenario profile:
TechCrunch is a tier-1 outlet, score 1.0. -/
lemma publication_profile7 :
    calculate_publication_quality_score
      (pyGet profile7 "current_publication" (.pstr "")) = .ok 1 := by
  have h : pyGet profile7 "current_publication" (.pstr "") = .pstr "TechCrunch" := rfl
  rw [h, calculate_publication_quality_score]
  rw [if_neg (by decide)]
  rw [if_pos (by decide)]

/-- Expertise sub-score of the concrete scenario profile (no relevance
score, no specializations, no programming flag). -/
lemma expertise_profile7 :
    calculate_expertise_score (getOr0 profile7 "ai_relevance_score") profile7 = .ok 0 := by
  have h1 : getOr0 profile7 "ai_relevance_score" = .pint 0 := rfl
  have h2 : pyGet profile7 "specializations" (.plist []) = .plist [] := rfl
  have h3 : pyGet profile7 "programming_expertise" (.pbool false) = .pbool false := rfl
  rw [calculate_expertise_score, h1, h2, h3]
  norm_num [pyToRat, specListOf, strListOf, PyVal.truthy]

/-- Academic sub-score of the concrete scenario profile (all metrics
absent, hence 0). -/
lemma academic_profile7 :
    calculate_academic_score (getOr0 profile7 "citation_count")
      (getOr0 profile7 "h_index") (getOr0 profile7 "publication_count") = .ok 0 := by
  have h1 : getOr0 profile7 "citation_count" = .pint 0 := rfl
  have h2 : getOr0 profile7 "h_index" = .pint 0 := rfl
  have h3 : getOr0 profile7 "publication_count" = .pint 0 := rfl
  rw [h1, h2, h3, calculate_academic_score]
  rw [if_pos (by decide)]

/-- The social component of the concrete scenario profile is strictly
positive. -/
lemma social_profile7_pos : 0 < min (Real.logb 10 15001 / Real.logb 10 100001) 1 := by
  apply lt_min _ (by norm_num)
  apply div_pos
  · apply Real.logb_pos <;> norm_num
  · apply Real.logb_pos <;> norm_num

/-- The social component is at most 1. -/
lemma social_profile7_le_one : min (Real.logb 10 15001 / Real.logb 10 100001) 1 ≤ 1 :=
  min_le_right _ _

/-- The reputation score of the concrete scenario profile decomposes as
social·0.2 + engagement 0.6·0.2 + publication 1·0.2 + verification 0.1
(article and expertise contribute 0, the clamp is inactive). -/
lemma reputation_profile7 :
    calculate_reputation_score profile7 =
      min (Real.logb 10 15001 / Real.logb 10 100001) 1 * 0.2 +
        0.6 * 0.2 + 1 * 0.2 + 0.1 := by
  have hver : (pyGet profile7 "is_verified" (.pbool false)).truthy = true := rfl
  have hsp : pyGet profile7 "source_platform" (.pstr "") = .pstr "" := rfl
  have hS0 : 0 ≤ min (Real.logb 10 15001 / Real.logb 10 100001) 1 :=
    le_of_lt social_profile7_pos
  have hS1 := social_profile7_le_one
  have hraw : reputation_raw profile7 =
      .ok (0 * 0.3 + min (Real.logb 10 15001 / Real.logb 10 100001) 1 * 0.2 +
        0.6 * 0.2 + 1 * 0.2 + 0 * 0.1 + 0.1) := by
    simp only [reputation_raw, reputationTail, article_profile7, social_profile7,
      engagement_profile7, publication_profile7, expertise_profile7,
      academic_profile7, hver, hsp, if_true]
    rw [if_neg (by decide)]
  have hinner : reputation_inner profile7 =
      .ok (min (max (0 * 0.3 + min (Real.logb 10 15001 / Real.logb 10 100001) 1 * 0.2 +
        0.6 * 0.2 + 1 * 0.2 + 0 * 0.1 + 0.1) 0) 1) := by
    simp only [reputation_inner, hraw]
  simp only [calculate_reputation_score, hinner]
  rw [max_eq_left (by nlinarith), min_eq_left (by nlinarith)]
  ring

/-- C7 counterexample: on the concrete scenario profile the relevance
score does not exceed 0.5 — it is strictly below it ("ai" alone is not a
weighted keyword and the explicit-journalist bonus needs the word
"journalist", which the bio lacks). -/
theorem concrete_profile_relevance_not_above_half :
    ¬ (1 / 2 < calculate_ai_relevance_score profile7) :=
  not_lt.mpr (le_of_lt relevance_profile7_lt)

/-- C7 amended: on the concrete scenario profile the reputation score
incorporates the tier-1 publication score 1.0, the 0.1 verification
bonus and a strictly positive social component, while the relevance
score is strictly below 0.5. -/
theorem concrete_profile_scores :
    calculate_publication_quality_score
        (pyGet profile7 "current_publication" (.pstr "")) = .ok 1 ∧
      (pyGet profile7 "is_verified" (.pbool false)).truthy = true ∧
      0 < min (Real.logb 10 15001 / Real.logb 10 100001) 1 ∧
      calculate_reputation_score profile7 =
        min (Real.logb 10 15001 / Real.logb 10 100001) 1 * 0.2 +
          0.6 * 0.2 + 1 * 0.2 + 0.1 ∧
      calculate_ai_relevance_score profile7 < 1 / 2 :=
  ⟨publication_profile7, rfl, social_profile7_pos, reputation_profile7,
   relevance_profile7_lt⟩

/-- C9: both scoring engines are pure functions of the profile record:
identical inputs always produce identical scores. -/
theorem scoring_deterministic (p q : Profile) (h : p = q) :
    calculate_reputation_score p = calculate_reputation_score q ∧
      calculate_ai_relevance_score p = calculate_ai_relevance_score q := by
  subst h
  exact ⟨rfl, rfl⟩

/-- Witness for C9 at the concrete scenario profile. -/
theorem scoring_deterministic_witness :
    calculate_reputation_score profile7 = calculate_reputation_score profile7 ∧
      calculate_ai_relevance_score profile7 = calculate_ai_relevance_score profile7 :=
  scoring_deterministic profile7 profile7 rfl

/-- Witness for the amended C10 at a concrete store and record. -/
theorem email_fallthrough_name_merge_witness :
    add_journalist [rowFall] dataFall = [rowFall].set 0 (mergeRecord rowFall dataFall) ∧
      (mergeRecord rowFall dataFall).email = some "old@x" :=
  email_fallthrough_name_merge [rowFall] dataFall "new@x" "bob" "old@x" 0 rowFall
    rfl (by decide) (by decide) rfl (by decide) (by decide) rfl rfl (by decide) (by decide)

end JournalistFinder
